import Mathlib

/-!
# Verification of the automation / scheduling engine of `v0-social-media-bot`

Shallow embedding of the execution, scheduling and operational-intelligence
engine of the repository (the `AutomationEngine` class and the
`AdvancedProcessingService` class), together with proofs of the behavioural
claims made about it.

Modelling conventions:
* JavaScript text is modelled as `List Char` (named `Str` below) so that
  lengths, `substring` and `includes` become `List.length`, `List.take`
  and the infix-sublist relation.
* Epoch timestamps (`Date.getTime()` values, milliseconds) are modelled as
  `Int` where differences matter and as `Nat` where the code only builds
  forward dates.  Calendar decomposition of a timestamp (`getHours`,
  `setHours`, `setMinutes`, `setSeconds`, `setDate`) is modelled with the
  canonical fixed-offset decomposition `hour t = t % 86400000 / 3600000`;
  one day is a fixed 86400000 ms.
* Wall-clock-generated record fields that carry no behaviour
  (`id: crypto.randomUUID()`, `timestamp: new Date()`, `startedAt`,
  `completedAt`, `duration`) are omitted from the embedded records.
* The platform gateway (`platformManager`) is code of the repository that
  is not part of the verified sources; following the specification it is
  modelled as an oracle: `initializeClient` either succeeds or fails with a
  message, and the batch distribution call reports one
  `(platform, accountId, result)` per destination account.
* Floating-point percentage comparisons such as
  `(failures / total) * 100 > 50` are modelled by the exact rational
  comparison `100 * failures > 50 * total`.
-/

namespace SocialBot

/-- JavaScript strings, modelled as lists of characters. -/
abbrev Str := List Char

/-- Execution status of a `TaskExecution`
(`'success' | 'failed' | 'partial' | 'pending'`). -/
inductive ExecStatus where
  | success
  | failed
  | partialRun
  | pending
  deriving Repr, DecidableEq

/-- Task execution mode (`'immediate' | 'scheduled' | 'recurring'`). -/
inductive ExecutionType where
  | immediate
  | scheduled
  | recurring
  deriving Repr, DecidableEq

/-- Recurring pattern (`'daily' | 'weekly' | 'monthly' | 'custom'`). -/
inductive RecurringPattern where
  | daily
  | weekly
  | monthly
  | custom
  deriving Repr, DecidableEq

/-- The `transformations` field of a task
(`addHashtags?`, `prependText?`, `appendText?`; the `mediaResize` flag has
no effect in the verified code and is omitted). -/
structure Transformations where
  addHashtags : Option (List Str) := none
  prependText : Option Str := none
  appendText : Option Str := none
  deriving Repr, DecidableEq

/-- A `Task` record, restricted to the fields the engine reads.
`scheduleTime`, `lastExecuted` and `createdAt` are epoch milliseconds. -/
structure Task where
  id : String
  description : Str
  sourceAccounts : List String
  targetAccounts : List String
  executionType : ExecutionType
  scheduleTime : Option Int := none
  recurringPattern : Option RecurringPattern := none
  transformations : Option Transformations := none
  createdAt : Int := 0
  lastExecuted : Option Int := none
  deriving Repr, DecidableEq

/-- A platform account as the engine sees it (`PlatformAccount`),
restricted to the fields the verified code reads. -/
structure PlatformAccount where
  id : String
  platform : String
  isActive : Bool := true
  deriving Repr, DecidableEq

/-- One structured failure captured during a run (`ExecutionError`);
the wall-clock `timestamp` field is omitted. -/
structure ExecutionError where
  platform : String
  accountId : String
  code : String
  message : String
  retryable : Bool
  deriving Repr, DecidableEq

/-- The outcome record of one run (`TaskExecution` as returned by
`AutomationEngine.executeTask`); `id`, `startedAt`, `completedAt` and
`duration` are wall-clock data and are omitted. -/
structure TaskExecution where
  taskId : String
  status : ExecStatus
  itemsProcessed : Nat
  itemsFailed : Nat
  errors : List ExecutionError
  deriving Repr, DecidableEq

/-! ## Content Transformer (`AutomationEngine.transformContent`) -/

/-- `getPlatformMaxLength`: the per-platform character limit switch. -/
def getPlatformMaxLength (platform : String) : Nat :=
  if platform = "twitter" then 280
  else if platform = "tiktok" then 2200
  else if platform = "instagram" then 2200
  else if platform = "facebook" then 63206
  else if platform = "youtube" then 5000
  else if platform = "telegram" then 4096
  else if platform = "linkedin" then 3000
  else if platform = "threads" then 500
  else 10000

/-- The three-character ellipsis marker appended on truncation. -/
def ellipsis : Str := ['.', '.', '.']

/-- The task-level text edits of `transformContent`, before truncation:
prepend text on its own line, append text on its own line, then a blank
line followed by the space-joined hashtags (skipped when the hashtag list
is absent or empty, mirroring the `?.length` truthiness test). -/
def applyTransformations (text : Str) (task : Task) : Str :=
  let t1 :=
    match task.transformations.bind (·.prependText) with
    | some p => p ++ '\n' :: text
    | none => text
  let t2 :=
    match task.transformations.bind (·.appendText) with
    | some a => t1 ++ '\n' :: a
    | none => t1
  match task.transformations.bind (·.addHashtags) with
  | some tags => if tags.length ≠ 0 then t2 ++ '\n' :: '\n' :: (List.intercalate [' '] tags) else t2
  | none => t2

/-- `AutomationEngine.transformContent`: task-level edits followed by
truncation to the platform limit, replacing the last 3 characters with the
ellipsis marker when truncation occurs. -/
def transformContent (text : Str) (platform : String) (task : Task) : Str :=
  let transformed := applyTransformations text task
  let maxLength := getPlatformMaxLength platform
  if transformed.length > maxLength then transformed.take (maxLength - 3) ++ ellipsis
  else transformed

/-! ## Task Executor (`AutomationEngine.executeTask`) -/

/-- One publish result as reported by the platform gateway for one
destination account (`result: {success, error?}`). -/
structure PublishResult where
  success : Bool
  error : Option String := none
  deriving Repr, DecidableEq

/-- Modelled from the spec: the platform gateway (`platformManager`) is an
external collaborator whose source is not part of the verified files.  Per
the specification, `initializeClient(account)` either succeeds or fails
with a message (modelled as `Option String`, `some msg` = failure), and
the batch distribution call reports one `(platform, accountId, result)`
per destination account, determined here by `publishRes`. -/
structure Gateway where
  initRes : PlatformAccount → Option String
  publishRes : PlatformAccount → PublishResult

/-- Observable calls made to the platform gateway during a run. -/
inductive GatewayCall where
  | initClient (accountId : String)
  | distribute (targetIds : List String)
  deriving Repr, DecidableEq

/-- The single `return` expression at the end of `executeTask`: the final
status is derived as
`itemsFailed === 0 ? 'success' : itemsFailed === itemsProcessed ? 'failed' : 'partial'`. -/
def mkExecution (taskId : String) (itemsProcessed itemsFailed : Nat)
    (errors : List ExecutionError) : TaskExecution :=
  { taskId
    status :=
      if itemsFailed = 0 then ExecStatus.success
      else if itemsFailed = itemsProcessed then ExecStatus.failed
      else ExecStatus.partialRun
    itemsProcessed, itemsFailed, errors }

/-- The task-level `EXECUTION_ERROR` record pushed by the top-level
`catch` block of `executeTask`. -/
def taskLevelError (message : String) : ExecutionError :=
  { platform := "unknown", accountId := "", code := "EXECUTION_ERROR"
    message, retryable := true }

/-- The non-fatal `CLIENT_INIT_ERROR` record pushed when
`platformManager.initializeClient` fails for one account. -/
def clientInitError (a : PlatformAccount) (msg : String) : ExecutionError :=
  { platform := a.platform, accountId := a.id, code := "CLIENT_INIT_ERROR"
    message := "Failed to initialize client: " ++ msg, retryable := true }

/-- The `PUBLISH_ERROR` record pushed for a destination whose publish
attempt did not succeed (`message: result.result.error || 'Unknown error'`:
the fallback fires on a missing and on an empty error string alike). -/
def publishFailError (platform accountId : String) (err : Option String) : ExecutionError :=
  { platform, accountId, code := "PUBLISH_ERROR"
    message :=
      match err with
      | some e => if e = "" then "Unknown error" else e
      | none => "Unknown error"
    retryable := true }

/-- The client-initialization loop of `executeTask`: one non-fatal
`CLIENT_INIT_ERROR` per account whose `initializeClient` call failed. -/
def initErrorsOf (gw : Gateway) (accounts : List PlatformAccount) : List ExecutionError :=
  accounts.filterMap fun a => (gw.initRes a).map (clientInitError a)

/-- The result loop of `executeTask`: one `PUBLISH_ERROR` per destination
whose publish attempt did not succeed. -/
def publishErrorsOf (gw : Gateway) (accounts : List PlatformAccount) : List ExecutionError :=
  accounts.filterMap fun a =>
    if (gw.publishRes a).success then none
    else some (publishFailError a.platform a.id (gw.publishRes a).error)

/-- `AutomationEngine.executeTask`, returned together with the list of
calls the run makes to the platform gateway.

The two `throw new Error(...)` statements for an empty resolved source or
destination set are caught by the function's own top-level `catch`, which
increments `itemsFailed` (from 0 to 1) and pushes one task-level
`EXECUTION_ERROR`; at those points `itemsProcessed` is still 0, no error
has been recorded yet and no gateway call has been made.  Failures of
`initializeClient` are caught per account inside the loop and never abort
the run.  The `db.updateTask(task.id, {lastExecuted})` persistence write
does not affect the returned execution and is not modelled. -/
def executeTask (gw : Gateway) (task : Task)
    (accounts : String → Option PlatformAccount) :
    TaskExecution × List GatewayCall :=
  let sourceAccounts := task.sourceAccounts.filterMap accounts
  if sourceAccounts.length = 0 then
    (mkExecution task.id 0 1 [taskLevelError "No valid source accounts found"], [])
  else
    let destAccounts := task.targetAccounts.filterMap accounts
    if destAccounts.length = 0 then
      (mkExecution task.id 0 1 [taskLevelError "No valid destination accounts found"], [])
    else
      let allAccounts := sourceAccounts ++ destAccounts
      let initErrors := initErrorsOf gw allAccounts
      let publishErrors := publishErrorsOf gw destAccounts
      (mkExecution task.id 1 publishErrors.length (initErrors ++ publishErrors),
       allAccounts.map (fun a => GatewayCall.initClient a.id)
         ++ [GatewayCall.distribute (destAccounts.map (·.id))])

/-! ## Scheduler (`AutomationEngine.getTasksDueForExecution`) -/

/-- The filter predicate of `getTasksDueForExecution`: a scheduled task
with a schedule time is due iff `scheduleTime <= now`; a recurring task
with a pattern is due iff it never executed or the elapsed time reaches
the pattern's period (24 h / 7 d / 30 d, `custom` hits the `default`
branch and is never due); otherwise the task is due iff its mode is
`immediate`.  `now` and `lastExecuted` are epoch milliseconds. -/
def isDue (task : Task) (now : Int) : Bool :=
  match task.executionType with
  | ExecutionType.scheduled =>
    match task.scheduleTime with
    | some t => t ≤ now
    | none => false
  | ExecutionType.recurring =>
    match task.recurringPattern with
    | some p =>
      match task.lastExecuted with
      | none => true
      | some last =>
        let diff := now - last
        match p with
        | RecurringPattern.daily => 24 * 60 * 60 * 1000 ≤ diff
        | RecurringPattern.weekly => 7 * 24 * 60 * 60 * 1000 ≤ diff
        | RecurringPattern.monthly => 30 * 24 * 60 * 60 * 1000 ≤ diff
        | RecurringPattern.custom => false
    | none => false
  | ExecutionType.immediate => true

/-- `getTasksDueForExecution`, with the active-task snapshot read from the
persistence store passed in as `activeTasks`. -/
def getTasksDueForExecution (activeTasks : List Task) (now : Int) : List Task :=
  activeTasks.filter (fun task => isDue task now)

/-! ## Retry Coordinator (`AdvancedProcessingService.executeWithRetry`) -/

/-- The service's fixed `retryConfig` record. -/
structure RetryConfig where
  maxRetries : Nat
  initialDelay : Nat
  maxDelay : Nat
  backoffMultiplier : Nat
  deriving Repr, DecidableEq

/-- `retryConfig = { maxRetries: 3, initialDelay: 1000, maxDelay: 30000,
backoffMultiplier: 2 }`. -/
def retryConfig : RetryConfig :=
  { maxRetries := 3, initialDelay := 1000, maxDelay := 30000, backoffMultiplier := 2 }

/-- Observable outcome of one `executeWithRetry` run: the returned value
(`none` models the `null` returned after exhaustion), the sequence of
delays slept between attempts, and the number of attempts made. -/
structure RetryOutcome (T : Type) where
  result : Option T
  delays : List Nat
  attempts : Nat
  deriving Repr, DecidableEq

/-- The `for (attempt = 0; attempt <= maxRetries; attempt++)` loop of
`executeWithRetry`, unrolled on the number of remaining iterations.  The
fallible operation is modelled as `op : Nat → Except String T`, giving the
settlement of the `attempt`-th call.  A delay of
`min(initialDelay * multiplier ^ attempt, maxDelay)` is slept after every
failed attempt except the last one (`attempt < maxRetries`, i.e. the
remaining count is still above one). -/
def runRetry (op : Nat → Except String T) (attempt : Nat) : Nat → RetryOutcome T
  | 0 => { result := none, delays := [], attempts := 0 }
  | r + 1 =>
    match op attempt with
    | Except.ok v => { result := some v, delays := [], attempts := 1 }
    | Except.error _ =>
      if r = 0 then { result := none, delays := [], attempts := 1 }
      else
        let d := min (retryConfig.initialDelay * retryConfig.backoffMultiplier ^ attempt)
          retryConfig.maxDelay
        let rest := runRetry op (attempt + 1) r
        { result := rest.result, delays := d :: rest.delays, attempts := rest.attempts + 1 }

/-- `AdvancedProcessingService.executeWithRetry`: at most
`maxRetries + 1` attempts starting at attempt 0; returns `null` (here
`none`) when every attempt fails. -/
def executeWithRetry (op : Nat → Except String T) : RetryOutcome T :=
  runRetry op 0 (retryConfig.maxRetries + 1)

/-- `true` iff the settlement is a failure. -/
def isErrorSettle (x : Except String T) : Bool :=
  match x with
  | Except.error _ => true
  | Except.ok _ => false

/-! ## Batch Dispatcher (`AdvancedProcessingService.processBatch`) -/

/-- The `for (i = 0; i < tasks.length; i += batchSize)` slicing of
`processBatch` with the fixed `batchSize = 5`. -/
def batchChunks : List α → List (List α)
  | [] => []
  | x :: xs => ((x :: xs).take 5) :: batchChunks ((x :: xs).drop 5)
termination_by l => l.length
decreasing_by simp [List.length_drop]; omega

/-- The `results.forEach` counting step applied to one settled group:
each fulfilled worker increments `successful`, each rejected one
increments `failed`. -/
def settleCounts (ok : α → Bool) (acc : Nat × Nat) (batch : List α) : Nat × Nat :=
  batch.foldl (fun c t => if ok t then (c.1 + 1, c.2) else (c.1, c.2 + 1)) acc

/-- `AdvancedProcessingService.processBatch`: groups of 5 are settled one
group after another; the worker's settlement for each item is modelled by
`ok` (`true` = fulfilled, `false` = rejected).  Returns
`(successful, failed)`. -/
def processBatch (tasks : List α) (ok : α → Bool) : Nat × Nat :=
  (batchChunks tasks).foldl (settleCounts ok) (0, 0)

/-! ## Execution history records (the `TaskExecution` rows of the
persistence store, as read by `AdvancedProcessingService`) -/

/-- One stored execution row, restricted to the fields the service reads:
`status`, `error?` and `executedAt` (epoch ms, nonnegative). -/
structure TaskExecutionRec where
  status : ExecStatus
  error : Option Str := none
  executedAt : Nat := 0
  deriving Repr, DecidableEq

/-- `Date.prototype.getHours` under the fixed-offset calendar model. -/
def getHours (t : Nat) : Nat := t % 86400000 / 3600000

/-- `Date.prototype.getMinutes` under the fixed-offset calendar model. -/
def getMinutes (t : Nat) : Nat := t % 3600000 / 60000

/-- `Date.prototype.getSeconds` under the fixed-offset calendar model. -/
def getSeconds (t : Nat) : Nat := t % 60000 / 1000

/-- The calendar day a timestamp falls on. -/
def dayIndex (t : Nat) : Nat := t / 86400000

/-- `AdvancedProcessingService.getOptimalScheduleTime`, with the stored
execution history and the current instant passed in.  `Math.round` of the
nonnegative average `sum / n` is the exact `(2 * sum + n) / (2 * n)` in
integer division.  `setHours(avgHour); setMinutes(0); setSeconds(0)`
rebuilds today's date at `avgHour` with zero minutes and seconds while
keeping the current millisecond component (`now % 1000`), and
`setDate(getDate() + 1)` advances one day. -/
def getOptimalScheduleTime (executions : List TaskExecutionRec) (now : Nat) : Nat :=
  if executions.length = 0 then now + 60000
  else
    let successfulExec := executions.filter (fun e => e.status = ExecStatus.success)
    if successfulExec.length > 0 then
      let times := successfulExec.map (fun e => getHours e.executedAt)
      let avgHour := (2 * times.sum + times.length) / (2 * times.length)
      let optimalTime := (now / 86400000) * 86400000 + avgHour * 3600000 + now % 1000
      if optimalTime < now then optimalTime + 86400000 else optimalTime
    else now + 60000

/-! ## Risk Analyzer (`AdvancedProcessingService.analyzeErrors` and
`AdvancedProcessingService.predictFailure`) -/

/-- Severity of a suggested fix (`'low' | 'medium' | 'high'`). -/
inductive Severity where
  | low
  | medium
  | high
  deriving Repr, DecidableEq

/-- One `{pattern, suggestion, severity}` entry of `analyzeErrors`. -/
structure Suggestion where
  pattern : String
  suggestion : String
  severity : Severity
  deriving Repr, DecidableEq

/-- The entry pushed when the overall failure rate exceeds 50 %. -/
def highFailureRateSuggestion : Suggestion :=
  { pattern := "High failure rate"
    suggestion := "Review your authentication tokens and account permissions. Consider reconnecting your accounts."
    severity := Severity.high }

/-- The entry pushed when the joined error text contains "timeout". -/
def timeoutSuggestion : Suggestion :=
  { pattern := "Timeout errors"
    suggestion := "Your network connection may be unstable. Try increasing the execution timeout."
    severity := Severity.medium }

/-- The entry pushed when the joined error text contains "unauthorized"
or "401". -/
def authSuggestion : Suggestion :=
  { pattern := "Authentication errors"
    suggestion := "Your access token may have expired. Please reconnect your account."
    severity := Severity.high }

/-- The entry pushed when the joined error text contains "rate limit". -/
def rateLimitSuggestion : Suggestion :=
  { pattern := "Rate limiting"
    suggestion := "You are hitting API rate limits. Consider spreading your tasks over more time."
    severity := Severity.medium }

/-- `failures.map(f => f.error || '').join(' ')`: the concatenated error
text of the failed executions. -/
def joinedErrorText (failures : List TaskExecutionRec) : Str :=
  List.intercalate [' '] (failures.map (fun f => f.error.getD []))

/-- `AdvancedProcessingService.analyzeErrors`, with the stored execution
history passed in.  The `Array.isArray` guard is vacuous here; the
floating-point test `(failures / total) * 100 > 50` is the exact
comparison `100 * failures > 50 * total`; `String.prototype.includes` is
the infix-sublist relation on character lists. -/
def analyzeErrors (executions : List TaskExecutionRec) : List Suggestion :=
  if executions.length = 0 then []
  else
    let failures := executions.filter (fun e => e.status = ExecStatus.failed)
    if failures.length = 0 then []
    else
      let errorMessages := joinedErrorText failures
      (if 100 * failures.length > 50 * executions.length then [highFailureRateSuggestion] else [])
        ++ (if "timeout".toList <:+: errorMessages then [timeoutSuggestion] else [])
        ++ (if "unauthorized".toList <:+: errorMessages ∨ "401".toList <:+: errorMessages then
              [authSuggestion] else [])
        ++ (if "rate limit".toList <:+: errorMessages then [rateLimitSuggestion] else [])

/-- The additive risk score shape shared by `predictFailure`'s result:
`+40` for a qualifying failure-rate factor, `+30` for a qualifying
inactive-source-account factor, `+20` for a qualifying stale-task factor,
clamped by `Math.min(100, riskScore)`. -/
def riskScoreOf (b1 b2 b3 : Bool) : Nat :=
  min 100 ((if b1 then 40 else 0) + (if b2 then 30 else 0) + (if b3 then 20 else 0))

/-- `AdvancedProcessingService.predictFailure`, with the stored execution
history, the account lookup of the persistence store, and the current
instant passed in.  Returns `(riskLevel, factors)`.  The float tests
`(failed / total) * 100 > 30` and `taskAge / week > 4` are the exact
comparisons `100 * failed > 30 * total` and `taskAge > 4 * week`. -/
def predictFailure (task : Task) (executions : List TaskExecutionRec)
    (getAccount : String → Option PlatformAccount) (now : Int) :
    Nat × List String :=
  let b1 : Bool := executions.length > 0 &&
    100 * (executions.filter (fun e => e.status = ExecStatus.failed)).length >
      30 * executions.length
  let sourceAccts := task.sourceAccounts.filterMap getAccount
  let inactiveAccounts := (sourceAccts.filter (fun a => !a.isActive)).length
  let b2 : Bool := inactiveAccounts > 0
  let b3 : Bool := (now - task.createdAt > 4 * (7 * 24 * 60 * 60 * 1000) : Bool) &&
    executions.length < 5
  let factors : List String :=
    (if b1 then ["High historical failure rate"] else [])
      ++ (if b2 then [toString inactiveAccounts ++ " source account(s) inactive"] else [])
      ++ (if b3 then ["Old task with low execution count"] else [])
  (riskScoreOf b1 b2 b3, factors)

/-! ## Engine-level retry wrapper (`AutomationEngine.executeWithRetry`) -/

/-- The synthetic `UNKNOWN_ERROR` execution returned when the engine's
retry loop exhausts without having recorded any attempt outcome. -/
def engineUnknownExecution (taskId : String) : TaskExecution :=
  { taskId, status := ExecStatus.failed, itemsProcessed := 0, itemsFailed := 1
    errors := [{ platform := "unknown", accountId := "", code := "UNKNOWN_ERROR"
                 message := "Max retries reached", retryable := false }] }

/-- The `for (attempt = 0; attempt < maxRetries; attempt++)` loop of the
engine's own `executeWithRetry` wrapper, unrolled on the remaining
iteration count; `exec n` is the execution produced by the `n`-th call of
`executeTask`.  The loop returns as soon as a run ends `success` or
`partial`; a `failed` run is remembered as `lastError` and retried.
Returns the final execution and the number of `executeTask` calls made. -/
def engineRetryAux (exec : Nat → TaskExecution) (taskId : String) :
    Nat → Nat → Option TaskExecution → TaskExecution × Nat
  | _, 0, last => (last.getD (engineUnknownExecution taskId), 0)
  | attempt, r + 1, _ =>
    let e := exec attempt
    if e.status = ExecStatus.success ∨ e.status = ExecStatus.partialRun then (e, 1)
    else
      let rest := engineRetryAux exec taskId (attempt + 1) r (some e)
      (rest.1, rest.2 + 1)

/-- `AutomationEngine.executeWithRetry` (default `maxRetries = 3`). -/
def engineExecuteWithRetry (exec : Nat → TaskExecution) (taskId : String)
    (maxRetries : Nat) : TaskExecution × Nat :=
  engineRetryAux exec taskId 0 maxRetries none

/-! ## Concrete fixtures used by witnesses and counterexamples -/

/-- A task with no transformations. -/
def simpleTask : Task :=
  { id := "T", description := [], sourceAccounts := [], targetAccounts := []
    executionType := ExecutionType.immediate }

/-! ## Theorems -/

/-- Every platform limit is at least 280 characters. -/
theorem le_getPlatformMaxLength (platform : String) :
    280 ≤ getPlatformMaxLength platform := by
  unfold getPlatformMaxLength
  split_ifs <;> norm_num

/-- Claim C3: for every input text, platform and task transformations,
the transformed content is no longer than the platform's configured
maximum (280 for twitter, 63206 for facebook, 4096 for telegram, 3000 for
linkedin, 500 for threads, 10000 for unrecognized platforms), and
whenever the pre-truncation text exceeds the limit the result is the
first `limit - 3` characters followed by the ellipsis marker. -/
theorem transformContent_length_bounded (text : Str) (platform : String) (task : Task) :
    (transformContent text platform task).length ≤ getPlatformMaxLength platform ∧
    ((applyTransformations text task).length > getPlatformMaxLength platform →
      transformContent text platform task =
        (applyTransformations text task).take (getPlatformMaxLength platform - 3) ++ ellipsis) ∧
    getPlatformMaxLength "twitter" = 280 ∧ getPlatformMaxLength "facebook" = 63206 ∧
    getPlatformMaxLength "telegram" = 4096 ∧ getPlatformMaxLength "linkedin" = 3000 ∧
    getPlatformMaxLength "threads" = 500 ∧
    (∀ p : String, p ≠ "twitter" → p ≠ "tiktok" → p ≠ "instagram" → p ≠ "facebook" →
      p ≠ "youtube" → p ≠ "telegram" → p ≠ "linkedin" → p ≠ "threads" →
      getPlatformMaxLength p = 10000) := by
  have hmax := le_getPlatformMaxLength platform
  refine ⟨?_, ?_, by decide, by decide, by decide, by decide, by decide, ?_⟩
  · simp only [transformContent]
    split_ifs with h
    · simp only [List.length_append, List.length_take, ellipsis, List.length_cons,
        List.length_nil]
      omega
    · omega
  · intro h
    simp only [transformContent]
    rw [if_pos h]
  · intro p h1 h2 h3 h4 h5 h6 h7 h8
    unfold getPlatformMaxLength
    simp [h1, h2, h3, h4, h5, h6, h7, h8]

set_option maxRecDepth 4000 in
/-- Witness for C3: a 300-character text on twitter is truncated to
exactly 280 characters, 277 original characters plus the ellipsis. -/
theorem transformContent_length_bounded_witness :
    (transformContent (List.replicate 300 'a') "twitter" simpleTask).length ≤ 280 ∧
    transformContent (List.replicate 300 'a') "twitter" simpleTask =
      (List.replicate 300 'a').take 277 ++ ellipsis := by
  have h := transformContent_length_bounded (List.replicate 300 'a') "twitter" simpleTask
  obtain ⟨h1, h2, htw, -⟩ := h
  rw [htw] at h1
  refine ⟨h1, ?_⟩
  have hpre : applyTransformations (List.replicate 300 'a') simpleTask =
      List.replicate 300 'a' := rfl
  have hlen : (applyTransformations (List.replicate 300 'a') simpleTask).length >
      getPlatformMaxLength "twitter" := by
    rw [hpre, htw, List.length_replicate]
    norm_num
  have h3 := h2 hlen
  rw [hpre, htw] at h3
  norm_num at h3
  exact h3

/-- A scheduled task fixture with `scheduleTime = 3`. -/
def schedTask : Task :=
  { id := "S", description := [], sourceAccounts := [], targetAccounts := []
    executionType := ExecutionType.scheduled, scheduleTime := some 3 }

/-- Claim C5: the due-set computation keeps exactly the due tasks of the
active snapshot; an immediate task is always due; a scheduled task with a
schedule time is due iff that time is at most `now`; a recurring task
with a pattern is due iff it never executed or the elapsed time reaches
24 h (daily), 7 d (weekly) or 30 d (monthly), the unrecognized pattern
contributing no period case. -/
theorem isDue_characterization (task : Task) (now : Int) (activeTasks : List Task) :
    (task ∈ getTasksDueForExecution activeTasks now ↔
      task ∈ activeTasks ∧ isDue task now = true) ∧
    (task.executionType = ExecutionType.immediate → isDue task now = true) ∧
    (∀ t : Int, task.executionType = ExecutionType.scheduled → task.scheduleTime = some t →
      (isDue task now = true ↔ t ≤ now)) ∧
    (∀ p, task.executionType = ExecutionType.recurring → task.recurringPattern = some p →
      (isDue task now = true ↔
        task.lastExecuted = none ∨
        ∃ last : Int, task.lastExecuted = some last ∧
          ((p = RecurringPattern.daily ∧ 24 * 60 * 60 * 1000 ≤ now - last) ∨
           (p = RecurringPattern.weekly ∧ 7 * 24 * 60 * 60 * 1000 ≤ now - last) ∨
           (p = RecurringPattern.monthly ∧ 30 * 24 * 60 * 60 * 1000 ≤ now - last)))) ∧
    (∀ last : Int, task.executionType = ExecutionType.recurring →
      task.recurringPattern = some RecurringPattern.custom →
      task.lastExecuted = some last → isDue task now = false) := by
  refine ⟨by simp [getTasksDueForExecution, List.mem_filter], ?_, ?_, ?_, ?_⟩
  · intro h
    simp [isDue, h]
  · intro t h1 h2
    simp [isDue, h1, h2]
  · intro p h1 h2
    rcases hl : task.lastExecuted with _ | last
    · simp [isDue, h1, h2, hl]
    · cases p <;> simp [isDue, h1, h2, hl]
  · intro last h1 h2 hl
    simp [isDue, h1, h2, hl]

/-- Witness for C5: an immediate task is due at time 0, and the scheduled
fixture with schedule time 3 is due at time 5. -/
theorem isDue_characterization_witness :
    isDue simpleTask 0 = true ∧ isDue schedTask 5 = true := by
  constructor
  · exact (isDue_characterization simpleTask 0 []).2.1 rfl
  · exact ((isDue_characterization schedTask 5 []).2.2.1 3 rfl rfl).mpr (by norm_num)

/-- Counting one settled group: fulfilled items increment the first
component, rejected ones the second. -/
theorem settleCounts_spec (ok : α → Bool) (l : List α) (s f : Nat) :
    settleCounts ok (s, f) l =
      (s + (l.filter ok).length, f + (l.filter (fun t => !(ok t))).length) := by
  induction l generalizing s f with
  | nil => simp [settleCounts]
  | cons x xs ih =>
    simp only [settleCounts, List.foldl_cons] at *
    by_cases h : ok x <;> simp [h, ih] <;> omega

/-- The groups of `processBatch` concatenate back to the input list. -/
theorem batchChunks_join (l : List α) : (batchChunks l).flatten = l := by
  induction l using batchChunks.induct with
  | case1 => simp [batchChunks]
  | case2 x xs ih =>
    rw [batchChunks]
    simp only [List.flatten_cons, ih, List.take_append_drop]

/-- Every group produced by `processBatch` holds at most 5 items. -/
theorem batchChunks_length_le (l : List α) : ∀ b ∈ batchChunks l, b.length ≤ 5 := by
  induction l using batchChunks.induct with
  | case1 => simp [batchChunks]
  | case2 x xs ih =>
    rw [batchChunks]
    intro b hb
    rcases List.mem_cons.mp hb with h | h
    · subst h
      rw [List.length_take]
      exact min_le_left _ _
    · exact ih b h

/-- Folding the group counter over a group list counts over the
concatenation. -/
theorem foldl_settleCounts (ok : α → Bool) (bs : List (List α)) (s f : Nat) :
    bs.foldl (settleCounts ok) (s, f) =
      (s + (bs.flatten.filter ok).length, f + (bs.flatten.filter (fun t => !(ok t))).length) := by
  induction bs generalizing s f with
  | nil => simp
  | cons b bs ih =>
    rw [List.foldl_cons, settleCounts_spec, ih]
    simp only [List.flatten_cons, List.filter_append, List.length_append, Prod.mk.injEq]
    omega

/-- Splitting a list by a predicate preserves its length. -/
theorem length_filter_add_length_filter_not (ok : α → Bool) (l : List α) :
    (l.filter ok).length + (l.filter (fun t => !(ok t))).length = l.length := by
  induction l with
  | nil => simp
  | cons x xs ih => by_cases h : ok x <;> simp [h, ih] <;> omega

/-- Claim C6: `processBatch` over `N` items returns counts summing to
`N`; the items are split into sequential groups of at most 5 that
concatenate back to the input; the success count is the number of
fulfilled items and the failure count the number of rejected items, over
the whole input, so one item's failure never prevents any other item
from being counted as attempted. -/
theorem processBatch_counts (tasks : List α) (ok : α → Bool) :
    (processBatch tasks ok).1 + (processBatch tasks ok).2 = tasks.length ∧
    (processBatch tasks ok).1 = (tasks.filter ok).length ∧
    (processBatch tasks ok).2 = (tasks.filter (fun t => !(ok t))).length ∧
    (batchChunks tasks).flatten = tasks ∧
    (∀ b ∈ batchChunks tasks, b.length ≤ 5) := by
  have h := foldl_settleCounts ok (batchChunks tasks) 0 0
  rw [batchChunks_join] at h
  simp only [Nat.zero_add] at h
  refine ⟨?_, ?_, ?_, batchChunks_join tasks, batchChunks_length_le tasks⟩
  · rw [processBatch, h]
    exact length_filter_add_length_filter_not ok tasks
  · rw [processBatch, h]
  · rw [processBatch, h]

/-- Witness for C6: seven items with four rejections settle as
`(successful, failed) = (3, 4)`, and the groups are `[5, 2]`-sized. -/
theorem processBatch_counts_witness :
    (processBatch [1, 2, 3, 4, 5, 6, 7] (fun n => n % 2 = 0)).1 +
      (processBatch [1, 2, 3, 4, 5, 6, 7] (fun n => n % 2 = 0)).2 = 7 ∧
    (processBatch [1, 2, 3, 4, 5, 6, 7] (fun n => n % 2 = 0)).1 = 3 :=
  ⟨(processBatch_counts [1, 2, 3, 4, 5, 6, 7] (fun n => n % 2 = 0)).1,
   ((processBatch_counts [1, 2, 3, 4, 5, 6, 7] (fun n => n % 2 = 0)).2.1).trans (by decide)⟩

/-- A settlement is a failure exactly when it is an `error`. -/
theorem isErrorSettle_iff (x : Except String T) :
    isErrorSettle x = true ↔ ∃ e, x = Except.error e := by
  cases x <;> simp [isErrorSettle]

/-- The retry loop never makes more attempts than it has iterations. -/
theorem runRetry_attempts_le (op : Nat → Except String T) (a r : Nat) :
    (runRetry op a r).attempts ≤ r := by
  induction r generalizing a with
  | zero => simp [runRetry]
  | succ n ih =>
    rcases hop : op a with e | v
    · by_cases hn : n = 0
      · subst hn
        simp [runRetry, hop]
      · simp only [runRetry, hop, if_neg hn]
        exact Nat.succ_le_succ (ih (a + 1))
    · simp [runRetry, hop]

/-- The delays slept by the retry loop starting at attempt `a` form the
sequence `min(initialDelay * multiplier ^ (a + i), maxDelay)`. -/
theorem runRetry_delays_eq (op : Nat → Except String T) (a r : Nat) :
    (runRetry op a r).delays =
      (List.range (runRetry op a r).delays.length).map
        (fun i => min (retryConfig.initialDelay * retryConfig.backoffMultiplier ^ (a + i))
          retryConfig.maxDelay) := by
  induction r generalizing a with
  | zero => simp [runRetry]
  | succ n ih =>
    rcases hop : op a with e | v
    · by_cases hn : n = 0
      · subst hn
        simp [runRetry, hop]
      · simp only [runRetry, hop, if_neg hn]
        rw [List.length_cons, List.range_succ_eq_map]
        simp only [List.map_cons, Nat.add_zero, List.map_map]
        congr 1
        rw [ih (a + 1)]
        simp only [List.length_map, List.length_range]
        apply List.map_congr_left
        intro i _
        simp only [Function.comp_apply]
        have hexp : a + 1 + i = a + i.succ := by omega
        rw [hexp]
    · simp [runRetry, hop]

/-- Claim C4: `executeWithRetry` makes at most `maxRetries + 1` attempts
under the fixed config `{maxRetries: 3, initialDelay: 1000, maxDelay:
30000, multiplier: 2}`; the delay slept after the `n`-th failed attempt
is `min(1000 * 2 ^ n, 30000)`, i.e. 1000, 2000, 4000, 8000, 16000 and
30000 from the point the doubling would exceed it; and when every
attempt fails, the call returns the explicit `null` result (here `none`)
after exactly 4 attempts with delays 1000, 2000, 4000 — it does not
throw. -/
theorem executeWithRetry_spec (op : Nat → Except String T) :
    (executeWithRetry op).attempts ≤ retryConfig.maxRetries + 1 ∧
    retryConfig =
      { maxRetries := 3, initialDelay := 1000, maxDelay := 30000, backoffMultiplier := 2 } ∧
    (∀ i (h : i < (executeWithRetry op).delays.length),
      (executeWithRetry op).delays.get ⟨i, h⟩ = min (1000 * 2 ^ i) 30000) ∧
    ((∀ k, k ≤ retryConfig.maxRetries → isErrorSettle (op k) = true) →
      (executeWithRetry op).result = none ∧ (executeWithRetry op).attempts = 4 ∧
        (executeWithRetry op).delays = [1000, 2000, 4000]) ∧
    (∀ n : Nat, min (1000 * 2 ^ n) 30000 =
      if n < 5 then 1000 * 2 ^ n else 30000) := by
  refine ⟨runRetry_attempts_le op 0 4, rfl, ?_, ?_, ?_⟩
  · intro i h
    have heq : (executeWithRetry op).delays =
        (List.range ((executeWithRetry op).delays.length)).map
          (fun i => min (1000 * 2 ^ i) 30000) := by
      have hd := runRetry_delays_eq op 0 (retryConfig.maxRetries + 1)
      simpa [executeWithRetry, retryConfig] using hd
    rw [List.get_of_eq heq]
    simp
  · intro hfail
    obtain ⟨e0, h0⟩ := (isErrorSettle_iff _).1 (hfail 0 (by decide))
    obtain ⟨e1, h1⟩ := (isErrorSettle_iff _).1 (hfail 1 (by decide))
    obtain ⟨e2, h2⟩ := (isErrorSettle_iff _).1 (hfail 2 (by decide))
    obtain ⟨e3, h3⟩ := (isErrorSettle_iff _).1 (hfail 3 (by decide))
    refine ⟨?_, ?_, ?_⟩ <;>
      · simp only [executeWithRetry, runRetry, h0, h1, h2, h3, retryConfig]
        norm_num
  · intro n
    by_cases h : n < 5
    · rw [if_pos h]
      interval_cases n <;> norm_num
    · rw [if_neg h]
      have h32 : (32 : Nat) ≤ 2 ^ n := by
        calc (32 : Nat) = 2 ^ 5 := by norm_num
        _ ≤ 2 ^ n := Nat.pow_le_pow_right (by norm_num) (by omega)
      have : (30000 : Nat) ≤ 1000 * 2 ^ n := by
        calc (30000 : Nat) ≤ 1000 * 32 := by norm_num
        _ ≤ 1000 * 2 ^ n := Nat.mul_le_mul_left 1000 h32
      omega

/-- Witness for C4: an operation that fails on every attempt exhausts
after 4 attempts with delays 1000, 2000, 4000 and yields `none`. -/
theorem executeWithRetry_spec_witness :
    (executeWithRetry (T := Nat) (fun _ => Except.error "e")).result = none ∧
    (executeWithRetry (T := Nat) (fun _ => Except.error "e")).attempts = 4 ∧
    (executeWithRetry (T := Nat) (fun _ => Except.error "e")).delays = [1000, 2000, 4000] :=
  (executeWithRetry_spec (T := Nat) (fun _ => Except.error "e")).2.2.2.1 (fun _ _ => rfl)

/-- The hours-of-day list `successfulExec.map(e => e.executedAt.getHours())`
drawn from the successful executions of a history. -/
def successHours (executions : List TaskExecutionRec) : List Nat :=
  (executions.filter (fun e => e.status = ExecStatus.success)).map
    (fun e => getHours e.executedAt)

/-- `Math.round(sum / length)` for a nonnegative rational average,
expressed in integer arithmetic. -/
def roundAvg (l : List Nat) : Nat := (2 * l.sum + l.length) / (2 * l.length)

/-- Today's date at the rounded average success hour, minutes and seconds
zeroed, millisecond component kept — the `optimalTime` value before the
past-check. -/
def optimalToday (executions : List TaskExecutionRec) (now : Nat) : Nat :=
  (now / 86400000) * 86400000 + roundAvg (successHours executions) * 3600000 + now % 1000

/-- An hour-of-day is at most 23. -/
theorem getHours_le (t : Nat) : getHours t ≤ 23 := by
  rw [getHours]
  omega

/-- The rounded average of a nonempty list of hours is a valid hour. -/
theorem roundAvg_lt_24 (l : List Nat) (hne : l.length ≠ 0) (hb : ∀ x ∈ l, x ≤ 23) :
    roundAvg l < 24 := by
  have hsum : l.sum ≤ l.length * 23 := by
    have h := List.sum_le_card_nsmul l 23 hb
    simpa [smul_eq_mul] using h
  rw [roundAvg, Nat.div_lt_iff_lt_mul (by omega : 0 < 2 * l.length)]
  omega

/-- On a history with at least one success, `getOptimalScheduleTime`
returns today's optimal instant, pushed to tomorrow when it already
passed. -/
theorem getOptimalScheduleTime_eq (executions : List TaskExecutionRec) (now : Nat)
    (hs : (successHours executions).length ≠ 0) :
    getOptimalScheduleTime executions now =
      if optimalToday executions now < now then optimalToday executions now + 86400000
      else optimalToday executions now := by
  rw [successHours, List.length_map] at hs
  have hlen : executions.length ≠ 0 := by
    intro h0
    rw [List.length_eq_zero.mp h0] at hs
    simp at hs
  simp only [getOptimalScheduleTime, optimalToday, successHours, roundAvg]
  rw [if_neg hlen, if_pos (by omega : (executions.filter (fun e => e.status = ExecStatus.success)).length > 0)]

/-- Claim C7: with no prior executions, or none successful,
`getOptimalScheduleTime` returns `now + 60s`; otherwise it returns a
time whose hour is the rounded average hour of the successful
executions, whose minutes and seconds are zero, and which falls on
today, or on tomorrow exactly when today's instant at that hour already
passed. -/
theorem getOptimalScheduleTime_spec (executions : List TaskExecutionRec) (now : Nat) :
    (executions.length = 0 → getOptimalScheduleTime executions now = now + 60000) ∧
    (executions.length ≠ 0 → (successHours executions).length = 0 →
      getOptimalScheduleTime executions now = now + 60000) ∧
    ((successHours executions).length ≠ 0 →
      getHours (getOptimalScheduleTime executions now) = roundAvg (successHours executions) ∧
      getMinutes (getOptimalScheduleTime executions now) = 0 ∧
      getSeconds (getOptimalScheduleTime executions now) = 0 ∧
      (optimalToday executions now < now →
        dayIndex (getOptimalScheduleTime executions now) = dayIndex now + 1) ∧
      (now ≤ optimalToday executions now →
        dayIndex (getOptimalScheduleTime executions now) = dayIndex now ∧
        now ≤ getOptimalScheduleTime executions now)) := by
  refine ⟨?_, ?_, ?_⟩
  · intro h
    simp [getOptimalScheduleTime, h]
  · intro h hs
    rw [successHours, List.length_map] at hs
    simp [getOptimalScheduleTime, h, hs]
  · intro hs
    have havg : roundAvg (successHours executions) < 24 := by
      refine roundAvg_lt_24 _ hs ?_
      intro x hx
      obtain ⟨e, -, rfl⟩ := List.mem_map.mp hx
      exact getHours_le _
    rw [getOptimalScheduleTime_eq executions now hs]
    refine ⟨?_, ?_, ?_, ?_, ?_⟩
    · simp only [optimalToday, getHours] at *
      split_ifs with hpast <;> omega
    · simp only [optimalToday, getMinutes] at *
      split_ifs with hpast <;> omega
    · simp only [optimalToday, getSeconds] at *
      split_ifs with hpast <;> omega
    · intro hpast
      rw [if_pos hpast]
      simp only [optimalToday, dayIndex] at *
      omega
    · intro hfut
      rw [if_neg (not_lt.mpr hfut)]
      simp only [optimalToday, dayIndex] at *
      constructor <;> omega

/-- The execution history of the C7 scenario: 6 successes at hours
9, 9, 10, 11, 9, 10 and 4 failures. -/
def hist6 : List TaskExecutionRec :=
  [{ status := ExecStatus.success, executedAt := 9 * 3600000 },
   { status := ExecStatus.success, executedAt := 9 * 3600000 },
   { status := ExecStatus.success, executedAt := 10 * 3600000 },
   { status := ExecStatus.success, executedAt := 11 * 3600000 },
   { status := ExecStatus.success, executedAt := 9 * 3600000 },
   { status := ExecStatus.success, executedAt := 10 * 3600000 },
   { status := ExecStatus.failed }, { status := ExecStatus.failed },
   { status := ExecStatus.failed }, { status := ExecStatus.failed }]

/-- Day 10 at 15:00:00.123 — past the computed optimal hour 10. -/
def now0 : Nat := 86400000 * 10 + 15 * 3600000 + 123

/-- Witness for C7: on the scenario history the rounded average success
hour is 10 (9.67 rounds up), and since 15:00 is past 10:00 the schedule
moves to hour 10 tomorrow, minutes zeroed. -/
theorem getOptimalScheduleTime_spec_witness :
    getHours (getOptimalScheduleTime hist6 now0) = 10 ∧
    getMinutes (getOptimalScheduleTime hist6 now0) = 0 ∧
    dayIndex (getOptimalScheduleTime hist6 now0) = dayIndex now0 + 1 := by
  have h := (getOptimalScheduleTime_spec hist6 now0).2.2 (by decide)
  exact ⟨h.1.trans (by decide), h.2.1, h.2.2.2.1 (by decide)⟩

/-- `executions.filter(e => e.status === 'failed')`. -/
def failedExecutions (executions : List TaskExecutionRec) : List TaskExecutionRec :=
  executions.filter (fun e => e.status = ExecStatus.failed)

/-- Membership in a conditional singleton. -/
theorem mem_if_singleton {α : Type} {c : Prop} [Decidable c] {x s : α} :
    (s ∈ if c then [x] else []) ↔ c ∧ s = x := by
  split_ifs with h <;> simp [h]

/-- Claim C8: `analyzeErrors` returns nothing when no execution failed;
otherwise its entries are exactly the pattern entries whose conditions
hold — failure rate above 50 %, error text containing "timeout",
containing "unauthorized" or "401", containing "rate limit" — each
checked independently, so several may co-occur. -/
theorem analyzeErrors_patterns (executions : List TaskExecutionRec) :
    (failedExecutions executions = [] → analyzeErrors executions = []) ∧
    (∀ s, s ∈ analyzeErrors executions ↔
      failedExecutions executions ≠ [] ∧
      ((s = highFailureRateSuggestion ∧
          100 * (failedExecutions executions).length > 50 * executions.length) ∨
       (s = timeoutSuggestion ∧
          "timeout".toList <:+: joinedErrorText (failedExecutions executions)) ∨
       (s = authSuggestion ∧
          ("unauthorized".toList <:+: joinedErrorText (failedExecutions executions) ∨
           "401".toList <:+: joinedErrorText (failedExecutions executions))) ∨
       (s = rateLimitSuggestion ∧
          "rate limit".toList <:+: joinedErrorText (failedExecutions executions)))) := by
  by_cases hfail : failedExecutions executions = []
  · have hzero : analyzeErrors executions = [] := by
      by_cases hlen : executions.length = 0
      · simp [analyzeErrors, hlen]
      · rw [failedExecutions] at hfail
        simp [analyzeErrors, hlen, hfail]
    exact ⟨fun _ => hzero, fun s => by simp [hzero, hfail]⟩
  · have hlen : executions.length ≠ 0 := by
      intro h0
      rw [List.length_eq_zero.mp h0] at hfail
      simp [failedExecutions] at hfail
    have hflen : ¬((executions.filter (fun e => e.status = ExecStatus.failed)).length = 0) := by
      rw [List.length_eq_zero]
      simpa [failedExecutions] using hfail
    refine ⟨fun h => absurd h hfail, fun s => ?_⟩
    rw [failedExecutions] at hfail
    simp only [failedExecutions, analyzeErrors, if_neg hlen, if_neg hflen, List.mem_append,
      mem_if_singleton]
    constructor
    · intro h
      refine ⟨hfail, ?_⟩
      tauto
    · intro h
      tauto

/-- A one-row failed history whose error text mentions both a timeout and
a 401 response. -/
def histTimeout401 : List TaskExecutionRec :=
  [{ status := ExecStatus.failed, error := some "timeout while 401".toList }]

/-- Witness for C8: error text containing both "timeout" and "401"
produces both the timeout entry and the authentication entry. -/
theorem analyzeErrors_patterns_witness :
    timeoutSuggestion ∈ analyzeErrors histTimeout401 ∧
    authSuggestion ∈ analyzeErrors histTimeout401 := by
  constructor
  · exact ((analyzeErrors_patterns histTimeout401).2 timeoutSuggestion).mpr
      ⟨by decide, Or.inr (Or.inl ⟨rfl, by decide⟩)⟩
  · exact ((analyzeErrors_patterns histTimeout401).2 authSuggestion).mpr
      ⟨by decide, Or.inr (Or.inr (Or.inl ⟨rfl, Or.inr (by decide)⟩))⟩

/-- Claim C9: the risk level returned by `predictFailure` is the clamped
sum `min(100, 40·[failure rate > 30%] + 30·[some inactive source
account] + 20·[older than 4 weeks with fewer than 5 executions])`; the
scoring shape is monotonically non-decreasing as more factors qualify
and never leaves `[0, 100]`. -/
theorem predictFailure_riskLevel (task : Task) (executions : List TaskExecutionRec)
    (getAccount : String → Option PlatformAccount) (now : Int) :
    (predictFailure task executions getAccount now).1 =
      riskScoreOf
        (executions.length > 0 &&
          100 * (executions.filter (fun e => e.status = ExecStatus.failed)).length >
            30 * executions.length)
        (((task.sourceAccounts.filterMap getAccount).filter (fun a => !a.isActive)).length > 0)
        ((now - task.createdAt > 4 * (7 * 24 * 60 * 60 * 1000) : Bool) &&
          executions.length < 5) ∧
    (∀ c1 c2 c3 : Bool, riskScoreOf c1 c2 c3 =
      min 100 ((if c1 then 40 else 0) + (if c2 then 30 else 0) + (if c3 then 20 else 0))) ∧
    (predictFailure task executions getAccount now).1 ≤ 100 ∧
    (∀ a1 a2 a3 b1 b2 b3 : Bool, (a1 = true → b1 = true) → (a2 = true → b2 = true) →
      (a3 = true → b3 = true) → riskScoreOf a1 a2 a3 ≤ riskScoreOf b1 b2 b3) := by
  have hle : ∀ c1 c2 c3 : Bool, riskScoreOf c1 c2 c3 ≤ 100 := by decide
  exact ⟨rfl, fun _ _ _ => rfl, hle _ _ _, by decide⟩

/-- Witness for C9: an empty history and no inactive accounts score 0,
within bounds, and fewer qualifying factors never score higher. -/
theorem predictFailure_riskLevel_witness :
    (predictFailure simpleTask [] (fun _ => none) 0).1 = 0 ∧
    (predictFailure simpleTask [] (fun _ => none) 0).1 ≤ 100 ∧
    riskScoreOf false false false ≤ riskScoreOf true true true := by
  have h := predictFailure_riskLevel simpleTask [] (fun _ => none) 0
  exact ⟨by decide, h.2.2.1,
    h.2.2.2 false false false true true true (fun _ => rfl) (fun _ => rfl) (fun _ => rfl)⟩

/-! ## Branch lemmas for `executeTask` -/

/-- With no resolvable source account the run aborts before any gateway
call. -/
theorem executeTask_src_empty (gw : Gateway) (task : Task)
    (accounts : String → Option PlatformAccount)
    (h : (task.sourceAccounts.filterMap accounts).length = 0) :
    executeTask gw task accounts =
      (mkExecution task.id 0 1 [taskLevelError "No valid source accounts found"], []) := by
  simp [executeTask, h]

/-- With sources but no resolvable destination account the run aborts
before any gateway call. -/
theorem executeTask_dest_empty (gw : Gateway) (task : Task)
    (accounts : String → Option PlatformAccount)
    (h1 : (task.sourceAccounts.filterMap accounts).length ≠ 0)
    (h2 : (task.targetAccounts.filterMap accounts).length = 0) :
    executeTask gw task accounts =
      (mkExecution task.id 0 1 [taskLevelError "No valid destination accounts found"], []) := by
  simp [executeTask, h1, h2]

/-- With resolvable sources and destinations the run initializes every
resolved account, distributes once, and aggregates init and publish
errors. -/
theorem executeTask_run (gw : Gateway) (task : Task)
    (accounts : String → Option PlatformAccount)
    (h1 : (task.sourceAccounts.filterMap accounts).length ≠ 0)
    (h2 : (task.targetAccounts.filterMap accounts).length ≠ 0) :
    executeTask gw task accounts =
      (mkExecution task.id 1
        (publishErrorsOf gw (task.targetAccounts.filterMap accounts)).length
        (initErrorsOf gw
            (task.sourceAccounts.filterMap accounts ++ task.targetAccounts.filterMap accounts)
          ++ publishErrorsOf gw (task.targetAccounts.filterMap accounts)),
       (task.sourceAccounts.filterMap accounts ++ task.targetAccounts.filterMap accounts).map
           (fun a => GatewayCall.initClient a.id)
         ++ [GatewayCall.distribute
              ((task.targetAccounts.filterMap accounts).map (fun a => a.id))]) := by
  simp [executeTask, h1, h2]

/-- The publish-error list has one entry per failed destination. -/
theorem publishErrorsOf_length (gw : Gateway) (l : List PlatformAccount) :
    (publishErrorsOf gw l).length =
      (l.filter (fun a => !(gw.publishRes a).success)).length := by
  induction l with
  | nil => rfl
  | cons a l ih =>
    by_cases h : (gw.publishRes a).success <;>
      simp [publishErrorsOf, List.filterMap_cons, h, ih] <;>
      simp [publishErrorsOf] at ih <;> omega

/-- Init errors never carry the `PUBLISH_ERROR` code. -/
theorem initErrorsOf_filter_publish (gw : Gateway) (l : List PlatformAccount) :
    (initErrorsOf gw l).filter (fun e => e.code = "PUBLISH_ERROR") = [] := by
  induction l with
  | nil => rfl
  | cons a l ih =>
    rcases h : gw.initRes a with _ | msg <;>
      simp [initErrorsOf, List.filterMap_cons, h, clientInitError] <;>
      simpa [initErrorsOf] using ih

/-- Every publish error carries the `PUBLISH_ERROR` code. -/
theorem publishErrorsOf_filter_publish (gw : Gateway) (l : List PlatformAccount) :
    (publishErrorsOf gw l).filter (fun e => e.code = "PUBLISH_ERROR") =
      publishErrorsOf gw l := by
  induction l with
  | nil => rfl
  | cons a l ih =>
    by_cases h : (gw.publishRes a).success <;>
      simp [publishErrorsOf, List.filterMap_cons, h, publishFailError] <;>
      simpa [publishErrorsOf] using ih

/-- An account map resolving no id at all. -/
def emptyAccountMap : String → Option PlatformAccount := fun _ => none

/-- A gateway on which every init and publish call succeeds. -/
def gwAllOk : Gateway :=
  { initRes := fun _ => none, publishRes := fun _ => { success := true } }

/-- A gateway that publishes successfully everywhere except account
`t2`, which reports one failure. -/
def gwOneFail : Gateway :=
  { initRes := fun _ => none
    publishRes := fun a =>
      if a.id = "t2" then { success := false, error := some "boom" }
      else { success := true } }

/-- A gateway on which every publish attempt fails. -/
def gwAllFail : Gateway :=
  { initRes := fun _ => none
    publishRes := fun _ => { success := false, error := some "down" } }

/-- An account map resolving the source `s1` and the targets `t1`, `t2`,
`t3`. -/
def accMap3 : String → Option PlatformAccount
  | "s1" => some { id := "s1", platform := "twitter" }
  | "t1" => some { id := "t1", platform := "twitter" }
  | "t2" => some { id := "t2", platform := "facebook" }
  | "t3" => some { id := "t3", platform := "telegram" }
  | _ => none

/-- A task whose single source id resolves to no account. -/
def taskNoSrc : Task :=
  { id := "T0", description := [], sourceAccounts := ["zz"], targetAccounts := ["t1"]
    executionType := ExecutionType.immediate }

/-- A task with one resolvable source and three resolvable targets. -/
def task3 : Task :=
  { id := "T3", description := [], sourceAccounts := ["s1"]
    targetAccounts := ["t1", "t2", "t3"], executionType := ExecutionType.immediate }

/-- A task with one resolvable source and two resolvable targets. -/
def task2t : Task :=
  { id := "T2", description := [], sourceAccounts := ["s1"], targetAccounts := ["t1", "t3"]
    executionType := ExecutionType.immediate }

/-- Counterexample to C1 as stated: on a task whose source ids resolve to
zero accounts the returned status is not `failed` (it is `partial`,
because `itemsFailed = 1` differs from both `0` and
`itemsProcessed = 0` in the status ternary). -/
theorem executeTask_no_sources_counterexample :
    taskNoSrc.sourceAccounts.filterMap emptyAccountMap = [] ∧
    (executeTask gwAllOk taskNoSrc emptyAccountMap).1.status ≠ ExecStatus.failed ∧
    (executeTask gwAllOk taskNoSrc emptyAccountMap).1.status = ExecStatus.partialRun := by
  refine ⟨rfl, ?_, ?_⟩ <;> decide

/-- Claim C1 (amended): when the configured source ids resolve to zero
accounts, `executeTask` returns an execution with status `partial`
(`itemsFailed = 1 ≠ itemsProcessed = 0` under the status ternary),
`itemsProcessed = 0`, exactly one task-level error record, and makes no
call to the platform gateway. -/
theorem executeTask_no_sources (gw : Gateway) (task : Task)
    (accounts : String → Option PlatformAccount)
    (h : task.sourceAccounts.filterMap accounts = []) :
    (executeTask gw task accounts).1.status = ExecStatus.partialRun ∧
    (executeTask gw task accounts).1.itemsProcessed = 0 ∧
    (executeTask gw task accounts).1.itemsFailed = 1 ∧
    (executeTask gw task accounts).1.errors =
      [taskLevelError "No valid source accounts found"] ∧
    (executeTask gw task accounts).2 = [] := by
  have hx := executeTask_src_empty gw task accounts (by rw [h]; rfl)
  refine ⟨?_, ?_, ?_, ?_, ?_⟩ <;> rw [hx] <;> rfl

/-- Witness for C1 (amended): the concrete zero-source task yields the
`partial` aborted execution and an empty gateway-call log. -/
theorem executeTask_no_sources_witness :
    (executeTask gwAllOk taskNoSrc emptyAccountMap).1.status = ExecStatus.partialRun ∧
    (executeTask gwAllOk taskNoSrc emptyAccountMap).1.itemsProcessed = 0 ∧
    (executeTask gwAllOk taskNoSrc emptyAccountMap).1.itemsFailed = 1 ∧
    (executeTask gwAllOk taskNoSrc emptyAccountMap).2 = [] := by
  have h := executeTask_no_sources gwAllOk taskNoSrc emptyAccountMap rfl
  exact ⟨h.1, h.2.1, h.2.2.1, h.2.2.2.2⟩

/-- Counterexample to C2 as stated: distributing to 3 resolved targets
with exactly 1 failing publish yields status `failed`
(`itemsFailed = 1 = itemsProcessed`), not `partial`. -/
theorem executeTask_one_publish_failure_counterexample :
    task3.sourceAccounts.filterMap accMap3 ≠ [] ∧
    (task3.targetAccounts.filterMap accMap3).length = 3 ∧
    ((task3.targetAccounts.filterMap accMap3).filter
        (fun a => !(gwOneFail.publishRes a).success)).length = 1 ∧
    (executeTask gwOneFail task3 accMap3).1.itemsFailed = 1 ∧
    (executeTask gwOneFail task3 accMap3).1.status ≠ ExecStatus.partialRun ∧
    (executeTask gwOneFail task3 accMap3).1.status = ExecStatus.failed := by
  refine ⟨?_, ?_, ?_, ?_, ?_, ?_⟩ <;> decide

/-- Claim C2 (amended): on a task distributed to 3 resolved targets with
exactly 1 failing publish attempt, `executeTask` returns status `failed`
(`itemsFailed = 1` equals `itemsProcessed = 1` in the status ternary),
`itemsFailed = 1`, and exactly one `PUBLISH_ERROR` record. -/
theorem executeTask_one_publish_failure (gw : Gateway) (task : Task)
    (accounts : String → Option PlatformAccount)
    (hsrc : task.sourceAccounts.filterMap accounts ≠ [])
    (hdest : (task.targetAccounts.filterMap accounts).length = 3)
    (hfail : ((task.targetAccounts.filterMap accounts).filter
        (fun a => !(gw.publishRes a).success)).length = 1) :
    (executeTask gw task accounts).1.status = ExecStatus.failed ∧
    (executeTask gw task accounts).1.itemsFailed = 1 ∧
    ((executeTask gw task accounts).1.errors.filter
        (fun e => e.code = "PUBLISH_ERROR")).length = 1 := by
  have h1 : (task.sourceAccounts.filterMap accounts).length ≠ 0 := by
    simpa [List.length_eq_zero] using hsrc
  have h2 : (task.targetAccounts.filterMap accounts).length ≠ 0 := by omega
  have hx := executeTask_run gw task accounts h1 h2
  have hplen : (publishErrorsOf gw (task.targetAccounts.filterMap accounts)).length = 1 :=
    (publishErrorsOf_length gw _).trans hfail
  refine ⟨?_, ?_, ?_⟩
  · rw [hx]
    simp [mkExecution, hplen]
  · rw [hx]
    simpa [mkExecution] using hplen
  · rw [hx]
    simp only [mkExecution]
    rw [List.filter_append, initErrorsOf_filter_publish, publishErrorsOf_filter_publish,
      List.nil_append]
    exact hplen

/-- Witness for C2 (amended): the concrete 3-target, 1-failure run ends
`failed` with one `PUBLISH_ERROR`. -/
theorem executeTask_one_publish_failure_witness :
    (executeTask gwOneFail task3 accMap3).1.status = ExecStatus.failed ∧
    (executeTask gwOneFail task3 accMap3).1.itemsFailed = 1 ∧
    ((executeTask gwOneFail task3 accMap3).1.errors.filter
        (fun e => e.code = "PUBLISH_ERROR")).length = 1 :=
  executeTask_one_publish_failure gwOneFail task3 accMap3 (by decide) (by decide) (by decide)

/-- Claim C10: `itemsProcessed` is 0 on an aborted run and exactly 1
otherwise (one content item, never the number of resolved targets); an
aborted run counts one failed item for its caught task-level exception,
a distributing run counts one failed item per failed publish attempt,
and `itemsFailed` can therefore exceed `itemsProcessed`. -/
theorem executeTask_items (gw : Gateway) (task : Task)
    (accounts : String → Option PlatformAccount) :
    ((executeTask gw task accounts).1.itemsProcessed = 0 ∨
      (executeTask gw task accounts).1.itemsProcessed = 1) ∧
    ((executeTask gw task accounts).1.itemsProcessed = 0 →
      (executeTask gw task accounts).1.itemsFailed = 1 ∧
      (executeTask gw task accounts).1.errors.length = 1) ∧
    ((executeTask gw task accounts).1.itemsProcessed = 1 →
      (executeTask gw task accounts).1.itemsFailed =
        ((task.targetAccounts.filterMap accounts).filter
          (fun a => !(gw.publishRes a).success)).length) ∧
    (∃ gw2 task2 accounts2,
      (executeTask gw2 task2 accounts2).1.itemsFailed >
        (executeTask gw2 task2 accounts2).1.itemsProcessed) := by
  refine ⟨?_, ?_, ?_, ⟨gwAllFail, task2t, accMap3, by decide⟩⟩
  · by_cases h1 : (task.sourceAccounts.filterMap accounts).length = 0
    · left
      rw [executeTask_src_empty gw task accounts h1]
      rfl
    · by_cases h2 : (task.targetAccounts.filterMap accounts).length = 0
      · left
        rw [executeTask_dest_empty gw task accounts h1 h2]
        rfl
      · right
        rw [executeTask_run gw task accounts h1 h2]
        rfl
  · intro hp
    by_cases h1 : (task.sourceAccounts.filterMap accounts).length = 0
    · rw [executeTask_src_empty gw task accounts h1]
      exact ⟨rfl, rfl⟩
    · by_cases h2 : (task.targetAccounts.filterMap accounts).length = 0
      · rw [executeTask_dest_empty gw task accounts h1 h2]
        exact ⟨rfl, rfl⟩
      · rw [executeTask_run gw task accounts h1 h2] at hp
        simp [mkExecution] at hp
  · intro hp
    by_cases h1 : (task.sourceAccounts.filterMap accounts).length = 0
    · rw [executeTask_src_empty gw task accounts h1] at hp
      simp [mkExecution] at hp
    · by_cases h2 : (task.targetAccounts.filterMap accounts).length = 0
      · rw [executeTask_dest_empty gw task accounts h1 h2] at hp
        simp [mkExecution] at hp
      · rw [executeTask_run gw task accounts h1 h2]
        exact publishErrorsOf_length gw _

/-- Witness for C10: a 2-target run where both publishes fail processes
1 item and fails 2, so `itemsFailed` exceeds `itemsProcessed`. -/
theorem executeTask_items_witness :
    (executeTask gwAllFail task2t accMap3).1.itemsProcessed = 1 ∧
    (executeTask gwAllFail task2t accMap3).1.itemsFailed = 2 := by
  have h := (executeTask_items gwAllFail task2t accMap3).2.2.1 (by decide)
  exact ⟨by decide, h.trans (by decide)⟩

end SocialBot
